import Mathlib

/-!
Verification development for the contract-intelligence pipeline
(`app/services/contract_service.py`, `app/services/ai_service.py`,
`app/services/ai_service_robust.py`, `app/models/contract.py`,
`app/api/contracts.py`).

Numeric floats of the Python code are modelled as `Rat` (all values the
pipeline itself writes are small integer-valued floats), timestamps as `Nat`
drawn from a logical clock, and fallible operations as `Option`/`Except`.
Python truthiness tests on optional payloads (`if not raw_text`,
`if basic_data`, `if error_details`) are embedded explicitly at each use site.
-/

namespace ContractIntel

/-- `ProcessingStatus` from `app/models/contract.py` (a string enum with values
"pending", "processing", "completed", "failed"). -/
inductive ProcessingStatus
  | pending
  | processing
  | completed
  | failed
deriving DecidableEq, Repr

/-- The string value of each `ProcessingStatus` member, as stored in the
database (`str` enum). -/
def ProcessingStatus.value : ProcessingStatus → String
  | .pending => "pending"
  | .processing => "processing"
  | .completed => "completed"
  | .failed => "failed"

/-- `PartyInfo` from `app/models/contract.py`. -/
structure PartyInfo where
  name : Option String := none
  legal_entity_name : Option String := none
  registration_details : Option String := none
  authorized_signatories : Option (List String) := none
  roles : Option (List String) := none
  confidence_score : Rat := 0
deriving DecidableEq, Repr

/-- `AccountInfo` from `app/models/contract.py`. -/
structure AccountInfo where
  billing_details : Option String := none
  account_numbers : Option (List String) := none
  references : Option (List String) := none
  billing_contact : Option String := none
  technical_contact : Option String := none
  confidence_score : Rat := 0
deriving DecidableEq, Repr

/-- `LineItem` from `app/models/contract.py`. -/
structure LineItem where
  description : Option String := none
  quantity : Option Rat := none
  unit_price : Option Rat := none
  total_price : Option Rat := none
  confidence_score : Rat := 0
deriving DecidableEq, Repr

/-- `FinancialDetails` from `app/models/contract.py`. -/
structure FinancialDetails where
  line_items : List LineItem := []
  total_contract_value : Option Rat := none
  currency : Option String := none
  tax_information : Option String := none
  additional_fees : Option (List String) := none
  confidence_score : Rat := 0
deriving DecidableEq, Repr

/-- `PaymentStructure` from `app/models/contract.py`. -/
structure PaymentStructure where
  payment_terms : Option String := none
  payment_schedules : Option (List String) := none
  due_dates : Option (List String) := none
  payment_methods : Option (List String) := none
  banking_details : Option String := none
  confidence_score : Rat := 0
deriving DecidableEq, Repr

/-- `RevenueClassification` from `app/models/contract.py`. -/
structure RevenueClassification where
  recurring_payments : Option Bool := none
  one_time_payments : Option Bool := none
  subscription_model : Option String := none
  billing_cycles : Option (List String) := none
  renewal_terms : Option String := none
  auto_renewal : Option Bool := none
  confidence_score : Rat := 0
deriving DecidableEq, Repr

/-- `ServiceLevelAgreement` from `app/models/contract.py`. -/
structure ServiceLevelAgreement where
  performance_metrics : Option (List String) := none
  benchmarks : Option (List String) := none
  penalty_clauses : Option (List String) := none
  remedies : Option (List String) := none
  support_terms : Option String := none
  maintenance_terms : Option String := none
  confidence_score : Rat := 0
deriving DecidableEq, Repr

/-- `ExtractedData` from `app/models/contract.py`: the aggregated structured
payload; every section other than `parties` is optional with default `None`. -/
structure ExtractedData where
  parties : List PartyInfo := []
  account_info : Option AccountInfo := none
  financial_details : Option FinancialDetails := none
  payment_structure : Option PaymentStructure := none
  revenue_classification : Option RevenueClassification := none
  sla : Option ServiceLevelAgreement := none
deriving DecidableEq, Repr

/-- `ScoringBreakdown` from `app/models/contract.py`: five sub-scores and a
`total_score` field.  Note the model declares no validator tying
`total_score` to the sub-scores; all six fields are independent. -/
structure ScoringBreakdown where
  financial_completeness : Rat := 0
  party_identification : Rat := 0
  payment_terms_clarity : Rat := 0
  sla_definition : Rat := 0
  contact_information : Rat := 0
  total_score : Rat := 0
deriving DecidableEq, Repr

/-- `GapAnalysis` from `app/models/contract.py`. -/
structure GapAnalysis where
  missing_fields : List String := []
  low_confidence_fields : List String := []
  recommendations : List String := []
deriving DecidableEq, Repr

/-- The pipeline-relevant projection of the stored `Contract` document
(`app/models/contract.py`).  File metadata (`filename`, `file_path`,
`file_size`, `mime_type`) plays no role in any pipeline or query step verified
here and is omitted. -/
structure ContractRecord where
  contract_id : String
  status : ProcessingStatus
  progress_percentage : Rat
  error_details : Option String
  extracted_data : Option ExtractedData
  scoring : Option ScoringBreakdown
  gap_analysis : Option GapAnalysis
  raw_text : Option String
  created_at : Nat
  updated_at : Nat
  processed_at : Option Nat
deriving DecidableEq, Repr

/-- A contract document as read back from the `contracts` collection by the
list query (`ContractService.get_contracts` projects exactly these fields into
`ContractStatusResponse`).  The stored `status` is the enum's string value. -/
structure StoredContract where
  contract_id : String
  status : String
  progress_percentage : Rat
  error_details : Option String
  created_at : Nat
  updated_at : Nat
deriving DecidableEq, Repr

/-- `ContractStatusResponse` from `app/models/contract.py` (status kept as the
stored string value). -/
structure ContractStatusResponse where
  contract_id : String
  status : String
  progress_percentage : Rat
  error_details : Option String
  created_at : Nat
  updated_at : Nat
deriving DecidableEq, Repr

/-- `ContractListResponse` from `app/models/contract.py`. -/
structure ContractListResponse where
  contracts : List ContractStatusResponse
  total : Int
  page : Int
  limit : Int
  has_next : Bool
  has_prev : Bool
deriving DecidableEq, Repr

/-- The filter built by `ContractService.get_contracts`: `if status_filter:`
adds `{"status": status_filter}` to the Mongo filter; a `None` or empty-string
filter (Python-falsy) matches every document. -/
def matchesFilter (status_filter : Option String) (c : StoredContract) : Bool :=
  match status_filter with
  | none => true
  | some s => if s = "" then true else c.status == s

/-- The Mongo sort key used by `get_contracts`:
`sort("created_at", DESCENDING)`. -/
def createdDesc (a b : StoredContract) : Prop :=
  b.created_at ≤ a.created_at

instance : DecidableRel createdDesc := fun a b =>
  inferInstanceAs (Decidable (b.created_at ≤ a.created_at))

instance : IsTotal StoredContract createdDesc :=
  ⟨fun a b => (Nat.le_total b.created_at a.created_at).imp id id⟩

instance : IsTrans StoredContract createdDesc :=
  ⟨fun _ _ _ h1 h2 => Nat.le_trans h2 h1⟩

/-- The pagination offset computed by `get_contracts`:
`skip = (page - 1) * limit`. -/
def listSkip (page limit : Int) : Int :=
  (page - 1) * limit

/-- Row projection performed in the cursor loop of `get_contracts`. -/
def toStatusResponse (c : StoredContract) : ContractStatusResponse :=
  { contract_id := c.contract_id
    status := c.status
    progress_percentage := c.progress_percentage
    error_details := c.error_details
    created_at := c.created_at
    updated_at := c.updated_at }

/-- `ContractService.get_contracts` (`app/services/contract_service.py`,
lines 84-125): count the documents matching the optional status filter,
compute `skip = (page-1)*limit`, `has_next = skip + limit < total`,
`has_prev = page > 1`, and return the page of matching documents sorted by
`created_at` descending.  The Mongo `skip`/`limit` cursor modifiers are
embedded as `drop`/`take` on the sorted list. -/
def get_contracts (store : List StoredContract) (page limit : Int)
    (status_filter : Option String) : ContractListResponse :=
  let filtered := store.filter (matchesFilter status_filter)
  let total : Int := filtered.length
  let skip := listSkip page limit
  let has_next := decide (skip + limit < total)
  let has_prev := decide (1 < page)
  let sorted := List.insertionSort createdDesc filtered
  let pageItems := (sorted.drop skip.toNat).take limit.toNat
  { contracts := pageItems.map toStatusResponse
    total := total
    page := page
    limit := limit
    has_next := has_next
    has_prev := has_prev }

/-- The valid status filter values checked by the list endpoint
(`[s.value for s in ProcessingStatus]`). -/
def statusValues : List String :=
  ["pending", "processing", "completed", "failed"]

/-- The HTTP list endpoint `GET /contracts` (`app/api/contracts.py`,
lines 148-169).  FastAPI's `Query(ge=1)` / `Query(ge=1, le=100)` declarations
reject out-of-range `page`/`limit` with a 422 validation error before the
handler body runs; the handler itself rejects a truthy unrecognized status
value with 400 and otherwise delegates to `get_contracts`. -/
def api_get_contracts (page limit : Int) (status : Option String)
    (store : List StoredContract) : Except Nat ContractListResponse :=
  if page < 1 ∨ limit < 1 ∨ 100 < limit then
    .error 422
  else
    match status with
    | some s =>
      if s ≠ "" ∧ s ∉ statusValues then
        .error 400
      else
        .ok (get_contracts store page limit (some s))
    | none => .ok (get_contracts store page limit none)

/-- One call issued to the structured-extraction client (Google AI), recording
exactly the run-dependent data interpolated into the corresponding prompt
builder.  `basic`/`financial`/`technical` embed the text prefix sliced by
`_extract_basic_contract_data` (`text[:3000]`), `_extract_financial_data`
(`text[:4000]`) and `_extract_technical_data` (`text[:4000]`) of
`app/services/ai_service.py`; `scoring` embeds the five summary values that
`_generate_scoring_and_gaps` interpolates (party count and four Yes/No flags)
— its prompt never embeds the contract text; `comprehensive` embeds the full
text interpolated by `build_contract_analysis_prompt` of
`app/services/ai_service_robust.py`. -/
inductive ExtractCall
  | basic (textPrefix : String)
  | financial (textPrefix : String)
  | technical (textPrefix : String)
  | scoring (parties : Nat) (hasFinancial hasPayment hasSla hasContacts : Bool)
  | comprehensive (text : String)
deriving DecidableEq, Repr

/-- Payload of a successful `_extract_basic_contract_data` call: a JSON object
with optional `parties` and `account_info` keys.  `none` at a field models an
absent key; `none` for the whole payload (at use sites) models a Python-falsy
result (`None` from a failed request, or an empty object). -/
structure BasicData where
  parties : Option (List PartyInfo) := none
  account_info : Option AccountInfo := none
deriving DecidableEq, Repr

/-- Payload of a successful `_extract_financial_data` call. -/
structure FinancialData where
  financial_details : Option FinancialDetails := none
  payment_structure : Option PaymentStructure := none
  revenue_classification : Option RevenueClassification := none
deriving DecidableEq, Repr

/-- Payload of a successful `_extract_technical_data` call. -/
structure TechnicalData where
  sla : Option ServiceLevelAgreement := none
deriving DecidableEq, Repr

/-- Payload of a successful `_generate_scoring_and_gaps` call. -/
structure ScoringData where
  scoring : Option ScoringBreakdown := none
  gap_analysis : Option GapAnalysis := none
deriving DecidableEq, Repr

/-- The zeroed scoring structure substituted by `_combine_extracted_data` when
the scoring sub-call produced no data. -/
def zeroScoring : ScoringBreakdown :=
  { financial_completeness := 0
    party_identification := 0
    payment_terms_clarity := 0
    sla_definition := 0
    contact_information := 0
    total_score := 0 }

/-- The placeholder gap analysis substituted by `_combine_extracted_data` when
the scoring sub-call produced no data. -/
def processingErrorGap : GapAnalysis :=
  { missing_fields := ["Unable to analyze due to processing error"]
    low_confidence_fields := []
    recommendations := ["Retry contract processing"] }

/-- The combined payload built by `_combine_extracted_data`: the
`extracted_data` sub-dict plus the (possibly absent) `scoring` and
`gap_analysis` sub-dicts. -/
structure CombinedData where
  extracted_data : ExtractedData
  scoring : Option ScoringBreakdown
  gap_analysis : Option GapAnalysis
deriving DecidableEq, Repr

/-- `AIService._combine_extracted_data` (`app/services/ai_service.py`,
lines 227-258).  `parties` falls back to `[]`; each of the other five
`extracted_data` sections is `section_data.get(key)` when its source payload
is truthy and `None` otherwise; a falsy `scoring_data` is replaced by the
zeroed scoring dict and the retry gap analysis.  The surrounding
`try`/`except` only guards plain dict construction, which cannot fail, so the
function always returns its combined dict. -/
def _combine_extracted_data (basic_data : Option BasicData)
    (financial_data : Option FinancialData) (technical_data : Option TechnicalData)
    (scoring_data : Option ScoringData) : Option CombinedData :=
  some
    { extracted_data :=
        { parties := match basic_data with
            | some b => b.parties.getD []
            | none => []
          account_info := basic_data.bind (fun b => b.account_info)
          financial_details := financial_data.bind (fun f => f.financial_details)
          payment_structure := financial_data.bind (fun f => f.payment_structure)
          revenue_classification :=
            financial_data.bind (fun f => f.revenue_classification)
          sla := technical_data.bind (fun t => t.sla) }
      scoring := match scoring_data with
        | some s => s.scoring
        | none => some zeroScoring
      gap_analysis := match scoring_data with
        | some s => s.gap_analysis
        | none => some processingErrorGap }

/-- Outcomes of the four structured-extraction sub-calls available to
`AIService.parse_contract_text` of `app/services/ai_service.py`; `none` models
a Python-falsy result of `_make_ai_request` (a failed or unparseable call, or
an empty object). -/
structure MultiStepEnv where
  basic : Option BasicData
  financial : Option FinancialData
  technical : Option TechnicalData
  scoring : Option ScoringData
deriving Repr

/-- Party count interpolated into the scoring prompt:
`len(basic_data.get('parties', [])) if basic_data else 0`. -/
def summaryParties (basic_data : Option BasicData) : Nat :=
  match basic_data with
  | some b => (b.parties.getD []).length
  | none => 0

/-- Financial flag interpolated into the scoring prompt:
`"Yes" if financial_data and financial_data.get('financial_details') else "No"`. -/
def summaryHasFinancial (financial_data : Option FinancialData) : Bool :=
  match financial_data with
  | some f => f.financial_details.isSome
  | none => false

/-- Payment flag interpolated into the scoring prompt. -/
def summaryHasPayment (financial_data : Option FinancialData) : Bool :=
  match financial_data with
  | some f => f.payment_structure.isSome
  | none => false

/-- SLA flag interpolated into the scoring prompt. -/
def summaryHasSla (technical_data : Option TechnicalData) : Bool :=
  match technical_data with
  | some t => t.sla.isSome
  | none => false

/-- Contacts flag interpolated into the scoring prompt:
`"Yes" if basic_data and basic_data.get('account_info') else "No"`. -/
def summaryHasContacts (basic_data : Option BasicData) : Bool :=
  match basic_data with
  | some b => b.account_info.isSome
  | none => false

/-- `AIService.parse_contract_text` of `app/services/ai_service.py`
(lines 25-56): the multi-step protocol.  It issues the basic call on
`text[:3000]`; a falsy basic payload aborts with `(None, None, None)`.
Otherwise it issues the financial and technical calls on `text[:4000]` and
the scoring call on the summary of the prior three payloads, combines
everything with `_combine_extracted_data`, and validates the three result
models (a `None` `scoring` or `gap_analysis` sub-dict makes the pydantic
constructor raise, which the surrounding `except` turns into
`(None, None, None)`).  The second component records the client calls issued,
in order. -/
def multiStep_parse (text : String) (env : MultiStepEnv) :
    Option (ExtractedData × ScoringBreakdown × GapAnalysis) × List ExtractCall :=
  let calls := [ExtractCall.basic (text.take 3000)]
  match env.basic with
  | none => (none, calls)
  | some b =>
    let calls := calls ++
      [ExtractCall.financial (text.take 4000),
       ExtractCall.technical (text.take 4000),
       ExtractCall.scoring (summaryParties (some b))
         (summaryHasFinancial env.financial) (summaryHasPayment env.financial)
         (summaryHasSla env.technical) (summaryHasContacts (some b))]
    match _combine_extracted_data (some b) env.financial env.technical env.scoring with
    | none => (none, calls)
    | some c =>
      match c.scoring, c.gap_analysis with
      | some sc, some ga => (some (c.extracted_data, sc, ga), calls)
      | _, _ => (none, calls)

/-- `ContractService.update_contract_status` (`app/services/contract_service.py`,
lines 40-64) as a pure record update: always sets `status` and refreshes
`updated_at`; sets `progress_percentage` only when a progress value is passed
(`if progress is not None`, so an explicit `0.0` is written); sets
`error_details` only when the argument is truthy (`if error_details:`, so
`None` and the empty string leave the stored value untouched); and stamps
`processed_at` when the new status is `COMPLETED`. -/
def update_contract_status (r : ContractRecord) (status : ProcessingStatus)
    (progress : Option Rat) (error_details : Option String) (now : Nat) :
    ContractRecord :=
  let r1 := { r with status := status, updated_at := now }
  let r2 := match progress with
    | some p => { r1 with progress_percentage := p }
    | none => r1
  let r3 := match error_details with
    | some e => if e = "" then r2 else { r2 with error_details := some e }
    | none => r2
  if status = ProcessingStatus.completed then
    { r3 with processed_at := some now }
  else
    r3

/-- `ContractService.update_contract_data` (`app/services/contract_service.py`,
lines 66-82): writes the extraction payload (`model_dump()` of each value when
present, `None` otherwise), the raw text, and refreshes `updated_at`, without
touching status or progress. -/
def update_contract_data (r : ContractRecord) (extracted : Option ExtractedData)
    (scoring : Option ScoringBreakdown) (gap : Option GapAnalysis)
    (raw_text : String) (now : Nat) : ContractRecord :=
  { r with
    extracted_data := extracted
    scoring := scoring
    gap_analysis := gap
    raw_text := some raw_text
    updated_at := now }

/-- The environment of one `process_contract` run.
`ocr` is the value returned by `OCRService.extract_text_from_pdf`, which
catches every exception internally and returns `None` on any failure, so the
OCR stage never raises.  `ai` is the value returned by the robust
`AIService.parse_contract_text` (`app/services/ai_service_robust.py`), which
likewise catches every exception and returns either a fully populated triple
or `(None, None, None)`.  `storeErr n` is the outcome of the `n`-th database
write issued by the run (counting from 0): `none` means the write succeeds,
`some msg` means `update_one` raises an exception whose `str()` is `msg`. -/
structure PipelineEnv where
  ocr : Option String
  ai : Option (ExtractedData × ScoringBreakdown × GapAnalysis)
  storeErr : Nat → Option String

/-- State threaded through a `process_contract` run: the current record, the
number of database writes attempted so far, a logical clock supplying
`datetime.utcnow()` values, the sequence of record states visible in the store
(initial state followed by the state after each successful write), and the
structured-extraction client calls issued so far. -/
structure PipelineState where
  record : ContractRecord
  storeCalls : Nat
  clock : Nat
  trace : List ContractRecord
  aiCalls : List ExtractCall

/-- One `update_contract_status` store write inside the `try` block: a failing
write leaves the record unchanged and raises (as `Except.error`) the store's
message together with the state at the raise point. -/
def tryUpdateStatus (env : PipelineEnv) (s : PipelineState)
    (status : ProcessingStatus) (progress : Option Rat)
    (error_details : Option String) :
    Except (String × PipelineState) PipelineState :=
  match env.storeErr s.storeCalls with
  | some msg => .error (msg, { s with storeCalls := s.storeCalls + 1 })
  | none =>
    let r := update_contract_status s.record status progress error_details s.clock
    .ok { s with
      record := r
      storeCalls := s.storeCalls + 1
      clock := s.clock + 1
      trace := s.trace ++ [r] }

/-- One `update_contract_data` store write inside the `try` block. -/
def tryUpdateData (env : PipelineEnv) (s : PipelineState)
    (extracted : Option ExtractedData) (scoring : Option ScoringBreakdown)
    (gap : Option GapAnalysis) (raw_text : String) :
    Except (String × PipelineState) PipelineState :=
  match env.storeErr s.storeCalls with
  | some msg => .error (msg, { s with storeCalls := s.storeCalls + 1 })
  | none =>
    let r := update_contract_data s.record extracted scoring gap raw_text s.clock
    .ok { s with
      record := r
      storeCalls := s.storeCalls + 1
      clock := s.clock + 1
      trace := s.trace ++ [r] }

/-- The `try` block of `ContractService.process_contract`
(`app/services/contract_service.py`, lines 129-171): mark Processing at 10,
run OCR (`if not raw_text`, so both `None` and an empty string fail the run
with status FAILED, progress `0.0` and detail "Failed to extract text from
PDF"); mark Processing at 50; run the robust AI parse (one comprehensive
client call carrying the full text; a `None` `extracted_data` fails the run at
progress `50.0` with detail "Failed to parse contract with AI"); mark
Processing at 90; persist the extraction payload; mark Completed at 100. -/
def process_contract_try (env : PipelineEnv) (s0 : PipelineState) :
    Except (String × PipelineState) PipelineState :=
  match tryUpdateStatus env s0 ProcessingStatus.processing (some 10) none with
  | .error e => .error e
  | .ok s1 =>
    match env.ocr with
    | none =>
      tryUpdateStatus env s1 ProcessingStatus.failed (some 0)
        (some "Failed to extract text from PDF")
    | some t =>
      if t = "" then
        tryUpdateStatus env s1 ProcessingStatus.failed (some 0)
          (some "Failed to extract text from PDF")
      else
        match tryUpdateStatus env s1 ProcessingStatus.processing (some 50) none with
        | .error e => .error e
        | .ok s2 =>
          let s2 := { s2 with aiCalls := s2.aiCalls ++ [ExtractCall.comprehensive t] }
          match env.ai with
          | none =>
            tryUpdateStatus env s2 ProcessingStatus.failed (some 50)
              (some "Failed to parse contract with AI")
          | some (ed, sc, ga) =>
            match tryUpdateStatus env s2 ProcessingStatus.processing (some 90) none with
            | .error e => .error e
            | .ok s3 =>
              match tryUpdateData env s3 (some ed) (some sc) (some ga) t with
              | .error e => .error e
              | .ok s4 =>
                tryUpdateStatus env s4 ProcessingStatus.completed (some 100) none

/-- The `except` handler of `process_contract` (lines 173-180): one more
status write setting FAILED, progress `0.0` and detail
`"Processing error: " + str(e)`.  If that write itself raises, the exception
propagates out of `process_contract` (second component `some`). -/
def handle_exception (env : PipelineEnv) (msg : String) (s : PipelineState) :
    PipelineState × Option String :=
  match env.storeErr s.storeCalls with
  | some m2 => ({ s with storeCalls := s.storeCalls + 1 }, some m2)
  | none =>
    let r := update_contract_status s.record ProcessingStatus.failed (some 0)
      (some ("Processing error: " ++ msg)) s.clock
    ({ s with
        record := r
        storeCalls := s.storeCalls + 1
        clock := s.clock + 1
        trace := s.trace ++ [r] }, none)

/-- `ContractService.process_contract` (lines 127-180): the `try` block with
its `except Exception` handler.  The second component is the exception, if
any, that escapes to the caller. -/
def process_contract (env : PipelineEnv) (s0 : PipelineState) :
    PipelineState × Option String :=
  match process_contract_try env s0 with
  | .ok s => (s, none)
  | .error (msg, s) => handle_exception env msg s

/-- A freshly created record (`Contract` model defaults at upload time:
status PENDING, progress `0.0`, no error, no payloads). -/
def initRecord (cid : String) : ContractRecord :=
  { contract_id := cid
    status := ProcessingStatus.pending
    progress_percentage := 0
    error_details := none
    extracted_data := none
    scoring := none
    gap_analysis := none
    raw_text := none
    created_at := 0
    updated_at := 0
    processed_at := none }

/-- Initial pipeline state for a fresh record. -/
def initState (cid : String) : PipelineState :=
  { record := initRecord cid
    storeCalls := 0
    clock := 1
    trace := [initRecord cid]
    aiCalls := [] }

/-- A full background run of `process_contract` on a freshly created record. -/
def runPipeline (env : PipelineEnv) (cid : String) : PipelineState × Option String :=
  process_contract env (initState cid)

/-- A stringified exception prefixed by the handler is never the empty string,
so the `if error_details:` truthiness test in `update_contract_status` always
stores it. -/
theorem processingError_ne_empty (m : String) : ¬("Processing error: " ++ m = "") := by
  intro h
  have hd := congrArg String.data h
  rw [String.data_append] at hd
  have := List.append_eq_nil.mp hd
  exact absurd this.1 (by decide)

/-- An environment in which every stage succeeds. -/
def envAllOk : PipelineEnv :=
  ⟨some "sample contract text", some ({}, {}, {}), fun _ => none⟩

/-- C6: for every record, `progress_percentage` is non-decreasing across the
sequence of updates performed while status is Pending or Processing, and a
record state has progress exactly 100 if and only if its status is
Completed. -/
theorem claim_C6_progress_monotone (env : PipelineEnv) (cid : String) :
    List.Chain' (fun p q => p ≤ q)
      (((runPipeline env cid).1.trace.filter
        (fun r => r.status == ProcessingStatus.pending ||
          r.status == ProcessingStatus.processing)).map
        (fun r => r.progress_percentage)) ∧
    ∀ r ∈ (runPipeline env cid).1.trace,
      (r.progress_percentage = 100 ↔ r.status = ProcessingStatus.completed) := by
  obtain ⟨ocr, ai, se⟩ := env
  unfold runPipeline process_contract process_contract_try handle_exception
    tryUpdateStatus tryUpdateData initState initRecord
  rcases h0 : se 0 with _ | m0 <;> simp only [h0]
  · rcases hocr : ocr with _ | t <;> simp only [hocr]
    · rcases h1 : se 1 with _ | m1 <;> simp only [h1] <;>
        rcases h2 : se 2 with _ | m2 <;>
        simp_all [update_contract_status, List.chain'_cons, processingError_ne_empty]
    · by_cases ht : t = ""
      · subst ht
        simp only [if_pos rfl]
        rcases h1 : se 1 with _ | m1 <;> simp only [h1] <;>
          rcases h2 : se 2 with _ | m2 <;>
          simp_all [update_contract_status, List.chain'_cons, processingError_ne_empty]
      · simp only [if_neg ht]
        rcases h1 : se 1 with _ | m1 <;> simp only [h1]
        · rcases hai : ai with _ | edscga <;> simp only [hai]
          · rcases h2 : se 2 with _ | m2 <;> simp only [h2] <;>
              rcases h3 : se 3 with _ | m3 <;>
              simp_all [update_contract_status, List.chain'_cons,
                processingError_ne_empty] <;> norm_num
          · obtain ⟨ed, sc, ga⟩ := edscga
            rcases h2 : se 2 with _ | m2 <;> simp only [h2]
            · rcases h3 : se 3 with _ | m3 <;> simp only [h3]
              · rcases h4 : se 4 with _ | m4 <;> simp only [h4] <;>
                  rcases h5 : se 5 with _ | m5 <;>
                  simp_all [update_contract_status, update_contract_data,
                    List.chain'_cons, processingError_ne_empty] <;> norm_num
              · rcases h4 : se 4 with _ | m4 <;>
                  simp_all [update_contract_status, update_contract_data,
                    List.chain'_cons, processingError_ne_empty] <;> norm_num
            · rcases h3 : se 3 with _ | m3 <;>
                simp_all [update_contract_status, List.chain'_cons,
                  processingError_ne_empty] <;> norm_num
        · rcases h2 : se 2 with _ | m2 <;>
            simp_all [update_contract_status, List.chain'_cons, processingError_ne_empty]
  · rcases h1 : se 1 with _ | m1 <;>
      simp_all [update_contract_status, List.chain'_cons, processingError_ne_empty]

/-- Witness for C6 at a fully successful run: the monotonicity part evaluates
on the concrete trace, and the final (Completed) record instantiates the
progress-100 equivalence. -/
theorem claim_C6_witness :
    List.Chain' (fun p q => p ≤ q)
      (((runPipeline envAllOk "w").1.trace.filter
        (fun r => r.status == ProcessingStatus.pending ||
          r.status == ProcessingStatus.processing)).map
        (fun r => r.progress_percentage)) ∧
    ((runPipeline envAllOk "w").1.record.progress_percentage = 100 ↔
      (runPipeline envAllOk "w").1.record.status = ProcessingStatus.completed) :=
  ⟨(claim_C6_progress_monotone envAllOk "w").1,
   (claim_C6_progress_monotone envAllOk "w").2 (runPipeline envAllOk "w").1.record
     (by decide)⟩

/-- An environment whose store fails exactly at the fourth write (the
`update_contract_data` call, issued after progress has reached 90). -/
def envFailAtData : PipelineEnv :=
  ⟨some "sample contract text", some ({}, {}, {}),
   fun n => if n = 3 then some "disk full" else none⟩

/-- C9: whenever the top-level exception handler of `process_contract` runs
and its own status write succeeds, the record is set to Failed with
`progress_percentage` 0.0, whatever progress had been recorded before, and no
exception escapes. -/
theorem claim_C9_handler_resets_progress (env : PipelineEnv) (cid : String)
    (msg : String) (s : PipelineState)
    (herr : process_contract_try env (initState cid) = .error (msg, s))
    (hok : env.storeErr s.storeCalls = none) :
    (runPipeline env cid).1.record.status = ProcessingStatus.failed ∧
    (runPipeline env cid).1.record.progress_percentage = 0 ∧
    (runPipeline env cid).2 = none := by
  unfold runPipeline process_contract
  rw [herr]
  simp [handle_exception, hok, update_contract_status, processingError_ne_empty]

/-- Witness for C9: a run whose data write fails after progress reached 90
ends Failed with progress 0; the trace shows 90 was recorded before the
handler overwrote it. -/
theorem claim_C9_witness :
    ((runPipeline envFailAtData "w9").1.trace.map
      (fun r => r.progress_percentage)) = [0, 10, 50, 90, 0] ∧
    ((runPipeline envFailAtData "w9").1.record.status = ProcessingStatus.failed ∧
     (runPipeline envFailAtData "w9").1.record.progress_percentage = 0 ∧
     (runPipeline envFailAtData "w9").2 = none) :=
  ⟨by decide, claim_C9_handler_resets_progress envFailAtData "w9" "disk full" _ rfl rfl⟩

/-- An environment in which every store write raises. -/
def envStoreDown : PipelineEnv :=
  ⟨some "x", none, fun _ => some "db down"⟩

/-- C7 counterexample: with the database down, the very first status write
raises, the handler's own Failed write raises too, and `process_contract`
propagates the exception to its caller — refuting "never propagates an
exception to its caller" for every input. -/
theorem claim_C7_counterexample :
    (runPipeline envStoreDown "c7").2 = some "db down" ∧
    (runPipeline envStoreDown "c7").2 ≠ none :=
  ⟨rfl, by decide⟩

/-- C7 as amended: `process_contract` propagates no exception when the `try`
block succeeds, and when a stage raises it propagates no exception provided
the handler's own Failed write succeeds, in which case the record ends Failed
with detail "Processing error: " followed by the stringified cause.  (OCR and
structured-extraction failures never raise at all: both services catch their
own exceptions and return `None` values, so the only exceptions reaching the
handler come from the store writes.) -/
theorem claim_C7_no_propagation (env : PipelineEnv) (cid : String) :
    (∀ s, process_contract_try env (initState cid) = .ok s →
      (runPipeline env cid).2 = none) ∧
    (∀ msg s, process_contract_try env (initState cid) = .error (msg, s) →
      env.storeErr s.storeCalls = none →
      (runPipeline env cid).2 = none ∧
      (runPipeline env cid).1.record.status = ProcessingStatus.failed ∧
      (runPipeline env cid).1.record.error_details =
        some ("Processing error: " ++ msg)) := by
  constructor
  · intro s hs
    unfold runPipeline process_contract
    rw [hs]
  · intro msg s herr hok
    unfold runPipeline process_contract
    rw [herr]
    simp [handle_exception, hok, update_contract_status, processingError_ne_empty]

/-- Witness for C7: the successful-run conjunct at a fully successful
environment, and the handled-exception conjunct at a run whose data write
fails. -/
theorem claim_C7_witness :
    (runPipeline envAllOk "w7").2 = none ∧
    ((runPipeline envFailAtData "w7").2 = none ∧
     (runPipeline envFailAtData "w7").1.record.status = ProcessingStatus.failed ∧
     (runPipeline envFailAtData "w7").1.record.error_details =
       some ("Processing error: " ++ "disk full")) :=
  ⟨(claim_C7_no_propagation envAllOk "w7").1 _ rfl,
   (claim_C7_no_propagation envFailAtData "w7").2 "disk full" _ rfl rfl⟩

/-- A scoring payload whose `total_score` is not the (clamped) sum of its
sub-scores, as the structured-extraction client is free to return. -/
def scBadTotal : ScoringBreakdown :=
  { total_score := 50 }

/-- An environment whose AI stage returns `scBadTotal` as the scoring. -/
def envBadTotal : PipelineEnv :=
  ⟨some "contract text", some ({}, scBadTotal, {}), fun _ => none⟩

/-- C4 counterexample: a run completes with a stored `ScoringBreakdown` whose
`total_score` (50) differs from the clamped sum of its five sub-scores (0) —
no code path recomputes or clamps the total, so the claimed invariant fails. -/
theorem claim_C4_counterexample :
    (runPipeline envBadTotal "c4").1.record.status = ProcessingStatus.completed ∧
    (runPipeline envBadTotal "c4").1.record.scoring = some scBadTotal ∧
    scBadTotal.total_score ≠
      min (scBadTotal.financial_completeness + scBadTotal.party_identification +
        scBadTotal.payment_terms_clarity + scBadTotal.sla_definition +
        scBadTotal.contact_information) 100 :=
  ⟨rfl, rfl, by norm_num [scBadTotal]⟩

/-- C4 as amended: every Completed record state carries `extracted_data`,
`raw_text` and `processed_at`, and its `ScoringBreakdown` is exactly the one
the extraction client returned, stored verbatim with no recomputation or
clamping of `total_score`. -/
theorem claim_C4_completed_record_fields (env : PipelineEnv) (cid : String) :
    ∀ r ∈ (runPipeline env cid).1.trace, r.status = ProcessingStatus.completed →
      r.extracted_data.isSome ∧ r.raw_text.isSome ∧ r.processed_at.isSome ∧
      ∀ ed sc ga, env.ai = some (ed, sc, ga) → r.scoring = some sc := by
  obtain ⟨ocr, ai, se⟩ := env
  unfold runPipeline process_contract process_contract_try handle_exception
    tryUpdateStatus tryUpdateData initState initRecord
  rcases h0 : se 0 with _ | m0 <;> simp only [h0]
  · rcases hocr : ocr with _ | t <;> simp only [hocr]
    · rcases h1 : se 1 with _ | m1 <;> simp only [h1] <;>
        rcases h2 : se 2 with _ | m2 <;>
        simp_all [update_contract_status, processingError_ne_empty]
    · by_cases ht : t = ""
      · subst ht
        simp only [if_pos rfl]
        rcases h1 : se 1 with _ | m1 <;> simp only [h1] <;>
          rcases h2 : se 2 with _ | m2 <;>
          simp_all [update_contract_status, processingError_ne_empty]
      · simp only [if_neg ht]
        rcases h1 : se 1 with _ | m1 <;> simp only [h1]
        · rcases hai : ai with _ | edscga <;> simp only [hai]
          · rcases h2 : se 2 with _ | m2 <;> simp only [h2] <;>
              rcases h3 : se 3 with _ | m3 <;>
              simp_all [update_contract_status, processingError_ne_empty]
          · obtain ⟨ed, sc, ga⟩ := edscga
            rcases h2 : se 2 with _ | m2 <;> simp only [h2]
            · rcases h3 : se 3 with _ | m3 <;> simp only [h3]
              · rcases h4 : se 4 with _ | m4 <;> simp only [h4] <;>
                  rcases h5 : se 5 with _ | m5 <;>
                  simp_all [update_contract_status, update_contract_data,
                    processingError_ne_empty]
              · rcases h4 : se 4 with _ | m4 <;>
                  simp_all [update_contract_status, update_contract_data,
                    processingError_ne_empty]
            · rcases h3 : se 3 with _ | m3 <;>
                simp_all [update_contract_status, processingError_ne_empty]
        · rcases h2 : se 2 with _ | m2 <;>
            simp_all [update_contract_status, processingError_ne_empty]
  · rcases h1 : se 1 with _ | m1 <;>
      simp_all [update_contract_status, processingError_ne_empty]

/-- Witness for C4 at a fully successful run: the final Completed record has
all three fields present and stores the client's scoring verbatim. -/
theorem claim_C4_witness :
    (runPipeline envAllOk "w4").1.record.extracted_data.isSome ∧
    (runPipeline envAllOk "w4").1.record.raw_text.isSome ∧
    (runPipeline envAllOk "w4").1.record.processed_at.isSome ∧
    (runPipeline envAllOk "w4").1.record.scoring = some {} := by
  have h := claim_C4_completed_record_fields envAllOk "w4"
    (runPipeline envAllOk "w4").1.record (by decide) (by decide)
  exact ⟨h.1, h.2.1, h.2.2.1, h.2.2.2 {} {} {} rfl⟩

/-- An environment whose store fails exactly at the fifth write (the final
status update to Completed), after `update_contract_data` already persisted
the extraction payload. -/
def envFailAtCompleted : PipelineEnv :=
  ⟨some "sample contract text", some ({}, {}, {}),
   fun n => if n = 4 then some "database connection lost" else none⟩

/-- C5 counterexample: when the final Completed write raises after the data
write succeeded, the handler leaves a Failed record whose `extracted_data` is
present — refuting "extraction_result stays absent" for every Failed record. -/
theorem claim_C5_counterexample :
    (runPipeline envFailAtCompleted "c5").1.record.status = ProcessingStatus.failed ∧
    (runPipeline envFailAtCompleted "c5").1.record.extracted_data.isSome = true :=
  ⟨rfl, rfl⟩

/-- C5 as amended: every Failed record state carries a non-empty
`error_details`; `error_details` is present only on Failed records; and a
Failed record can carry `extracted_data` only when the store failed at the
final Completed write (the fifth write of the run), after the payload had
already been persisted. -/
theorem claim_C5_failed_record_fields (env : PipelineEnv) (cid : String) :
    ∀ r ∈ (runPipeline env cid).1.trace,
      (r.status = ProcessingStatus.failed →
        ∃ e, r.error_details = some e ∧ e ≠ "") ∧
      (r.error_details ≠ none → r.status = ProcessingStatus.failed) ∧
      (r.status = ProcessingStatus.failed → r.extracted_data ≠ none →
        ∃ m, env.storeErr 4 = some m) := by
  obtain ⟨ocr, ai, se⟩ := env
  unfold runPipeline process_contract process_contract_try handle_exception
    tryUpdateStatus tryUpdateData initState initRecord
  rcases h0 : se 0 with _ | m0 <;> simp only [h0]
  · rcases hocr : ocr with _ | t <;> simp only [hocr]
    · rcases h1 : se 1 with _ | m1 <;> simp only [h1] <;>
        rcases h2 : se 2 with _ | m2 <;>
        simp_all [update_contract_status, processingError_ne_empty]
    · by_cases ht : t = ""
      · subst ht
        simp only [if_pos rfl]
        rcases h1 : se 1 with _ | m1 <;> simp only [h1] <;>
          rcases h2 : se 2 with _ | m2 <;>
          simp_all [update_contract_status, processingError_ne_empty]
      · simp only [if_neg ht]
        rcases h1 : se 1 with _ | m1 <;> simp only [h1]
        · rcases hai : ai with _ | edscga <;> simp only [hai]
          · rcases h2 : se 2 with _ | m2 <;> simp only [h2] <;>
              rcases h3 : se 3 with _ | m3 <;>
              simp_all [update_contract_status, processingError_ne_empty]
          · obtain ⟨ed, sc, ga⟩ := edscga
            rcases h2 : se 2 with _ | m2 <;> simp only [h2]
            · rcases h3 : se 3 with _ | m3 <;> simp only [h3]
              · rcases h4 : se 4 with _ | m4 <;> simp only [h4] <;>
                  rcases h5 : se 5 with _ | m5 <;>
                  simp_all [update_contract_status, update_contract_data,
                    processingError_ne_empty]
              · rcases h4 : se 4 with _ | m4 <;>
                  simp_all [update_contract_status, update_contract_data,
                    processingError_ne_empty]
            · rcases h3 : se 3 with _ | m3 <;>
                simp_all [update_contract_status, processingError_ne_empty]
        · rcases h2 : se 2 with _ | m2 <;>
            simp_all [update_contract_status, processingError_ne_empty]
  · rcases h1 : se 1 with _ | m1 <;>
      simp_all [update_contract_status, processingError_ne_empty]

/-- An environment whose OCR stage fails (the service returned `None`). -/
def envOcrDown : PipelineEnv :=
  ⟨none, none, fun _ => none⟩

/-- Witness for C5: the Failed record of an OCR-failed run has a concrete
non-empty `error_details`. -/
theorem claim_C5_witness :
    ∃ e, (runPipeline envOcrDown "w5").1.record.error_details = some e ∧ e ≠ "" :=
  (claim_C5_failed_record_fields envOcrDown "w5"
    (runPipeline envOcrDown "w5").1.record (by decide)).1 (by decide)

/-- C1 counterexample: a fully successful orchestrator run issues exactly one
structured-extraction client call (the comprehensive prompt of
`ai_service_robust`, carrying the full raw text), not four sequential
sub-calls — the orchestrator imports `ai_service` from
`app/services/ai_service_robust.py`, not from `app/services/ai_service.py`. -/
theorem claim_C1_counterexample :
    (runPipeline envAllOk "c1").1.record.status = ProcessingStatus.completed ∧
    (runPipeline envAllOk "c1").1.aiCalls =
      [ExtractCall.comprehensive "sample contract text"] ∧
    (runPipeline envAllOk "c1").1.aiCalls.length ≠ 4 :=
  ⟨rfl, rfl, by decide⟩

/-- C1 as amended: the orchestrator's structured-extraction stage is a single
comprehensive client call whose prompt embeds the full raw text; the
four-sub-call protocol — basic, financial, technical, then a scoring call
whose prompt carries only the section summary (party count and four flags)
and no contract text — is implemented by the `AIService` of
`app/services/ai_service.py`, which the orchestrator does not invoke. -/
theorem claim_C1_extraction_calls :
    (∀ env cid t, env.ocr = some t → t ≠ "" →
      env.storeErr 0 = none → env.storeErr 1 = none →
      (runPipeline env cid).1.aiCalls = [ExtractCall.comprehensive t]) ∧
    (∀ text menv b, menv.basic = some b →
      (multiStep_parse text menv).2 =
        [ExtractCall.basic (text.take 3000), ExtractCall.financial (text.take 4000),
         ExtractCall.technical (text.take 4000),
         ExtractCall.scoring (summaryParties (some b)) (summaryHasFinancial menv.financial)
           (summaryHasPayment menv.financial) (summaryHasSla menv.technical)
           (summaryHasContacts (some b))]) := by
  constructor
  · intro env cid t hocr ht h0 h1
    obtain ⟨ocr, ai, se⟩ := env
    cases hocr
    unfold runPipeline process_contract process_contract_try handle_exception
      tryUpdateStatus tryUpdateData initState initRecord
    simp only at h0 h1
    simp only [h0, h1, if_neg ht]
    rcases hai : ai with _ | edscga <;> simp only [hai]
    · rcases h2 : se 2 with _ | m2 <;> simp only [h2] <;>
        rcases h3 : se 3 with _ | m3 <;>
        simp_all [update_contract_status]
    · obtain ⟨ed, sc, ga⟩ := edscga
      rcases h2 : se 2 with _ | m2 <;> simp only [h2]
      · rcases h3 : se 3 with _ | m3 <;> simp only [h3]
        · rcases h4 : se 4 with _ | m4 <;> simp only [h4] <;>
            rcases h5 : se 5 with _ | m5 <;>
            simp_all [update_contract_status, update_contract_data]
        · rcases h4 : se 4 with _ | m4 <;>
            simp_all [update_contract_status, update_contract_data]
      · rcases h3 : se 3 with _ | m3 <;>
          simp_all [update_contract_status]
  · intro text menv b hb
    obtain ⟨mb, mf, mt, ms⟩ := menv
    cases hb
    rcases ms with _ | s
    · rfl
    · obtain ⟨ssc, sga⟩ := s
      rcases ssc with _ | sc <;> rcases sga with _ | ga <;> rfl

/-- A multi-step environment in which only the basic call succeeds (with an
empty payload). -/
def menvBasicOnly : MultiStepEnv :=
  ⟨some {}, none, none, none⟩

/-- Witness for C1: the single-call conjunct at a fully successful run, and
the four-call conjunct of the unused multi-step service at a concrete
environment. -/
theorem claim_C1_witness :
    (runPipeline envAllOk "w1").1.aiCalls =
      [ExtractCall.comprehensive "sample contract text"] ∧
    (multiStep_parse "sample" menvBasicOnly).2 =
      [ExtractCall.basic ("sample".take 3000), ExtractCall.financial ("sample".take 4000),
       ExtractCall.technical ("sample".take 4000),
       ExtractCall.scoring (summaryParties (some {})) (summaryHasFinancial none)
         (summaryHasPayment none) (summaryHasSla none) (summaryHasContacts (some {}))] :=
  ⟨claim_C1_extraction_calls.1 envAllOk "w1" _ rfl (by decide) rfl rfl,
   claim_C1_extraction_calls.2 "sample" menvBasicOnly {} rfl⟩

/-- C2 counterexample: with OCR failing, the run records progress 10 and then
the Failed write sets progress to 0.0 (not "unchanged"), and the stored
detail "Failed to extract text from PDF" does not contain the substring
"text extraction". -/
theorem claim_C2_counterexample :
    ((runPipeline envOcrDown "c2").1.trace.map
      (fun r => r.progress_percentage)) = [0, 10, 0] ∧
    (runPipeline envOcrDown "c2").1.record.error_details =
      some "Failed to extract text from PDF" ∧
    ¬ ("text extraction".data <:+: "Failed to extract text from PDF".data) :=
  ⟨by decide, rfl, by decide⟩

/-- C2 as amended: if text extraction fails or yields empty text (and the two
status writes succeed), the record ends Failed with progress set to 0.0 and
`error_details` exactly "Failed to extract text from PDF", which contains the
substring "extract text". -/
theorem claim_C2_ocr_failure (env : PipelineEnv) (cid : String)
    (h0 : env.storeErr 0 = none) (h1 : env.storeErr 1 = none)
    (hocr : env.ocr = none ∨ env.ocr = some "") :
    (runPipeline env cid).1.record.status = ProcessingStatus.failed ∧
    (runPipeline env cid).1.record.progress_percentage = 0 ∧
    (runPipeline env cid).1.record.error_details =
      some "Failed to extract text from PDF" ∧
    "extract text".data <:+: "Failed to extract text from PDF".data := by
  have hinfix : "extract text".data <:+: "Failed to extract text from PDF".data := by
    decide
  obtain ⟨ocr, ai, se⟩ := env
  unfold runPipeline process_contract process_contract_try handle_exception
    tryUpdateStatus initState initRecord
  rcases hocr with h | h <;> cases h <;>
    simp_all [update_contract_status]

/-- Witness for C2 at an OCR-failing environment with a reliable store. -/
theorem claim_C2_witness :
    (runPipeline envOcrDown "w2").1.record.status = ProcessingStatus.failed ∧
    (runPipeline envOcrDown "w2").1.record.progress_percentage = 0 ∧
    (runPipeline envOcrDown "w2").1.record.error_details =
      some "Failed to extract text from PDF" ∧
    "extract text".data <:+: "Failed to extract text from PDF".data :=
  claim_C2_ocr_failure envOcrDown "w2" rfl rfl (Or.inl rfl)

/-- A basic payload with one party and account info (a successful
parties/accounts call). -/
def bdSample : BasicData :=
  { parties := some [{}], account_info := some {} }

/-- A successful scoring payload. -/
def sdSample : ScoringData :=
  { scoring := some {}, gap_analysis := some {} }

/-- C3 counterexample: with the basic and scoring calls succeeding but the
financial and technical payloads missing, `_combine_extracted_data` maps every
missing section of `extracted_data` to `None` (null), not to an explicit
zeroed/placeholder structure. -/
theorem claim_C3_counterexample :
    (_combine_extracted_data (some bdSample) none none (some sdSample)).map
      (fun c => (c.extracted_data.financial_details.isSome,
                 c.extracted_data.payment_structure.isSome,
                 c.extracted_data.revenue_classification.isSome,
                 c.extracted_data.sla.isSome)) =
      some (false, false, false, false) :=
  rfl

/-- C3 as amended: the aggregator fills a missing scoring input with the
zeroed `ScoringBreakdown` and the placeholder `GapAnalysis` whose single
recommendation is "Retry contract processing" and whose `missing_fields`
records the processing failure (and the multi-step parse then still returns a
well-formed triple); but missing financial and technical inputs map to
`None`-valued section fields inside the (still well-formed) `ExtractedData`,
not to zeroed structures. -/
theorem claim_C3_missing_section_handling (b : BasicData) (fin : Option FinancialData)
    (tech : Option TechnicalData) (sd : Option ScoringData) (c : CombinedData)
    (hc : _combine_extracted_data (some b) fin tech sd = some c) :
    (fin = none → c.extracted_data.financial_details = none ∧
      c.extracted_data.payment_structure = none ∧
      c.extracted_data.revenue_classification = none) ∧
    (tech = none → c.extracted_data.sla = none) ∧
    (sd = none →
      c.scoring = some zeroScoring ∧
      c.gap_analysis = some processingErrorGap ∧
      processingErrorGap.recommendations = ["Retry contract processing"] ∧
      processingErrorGap.missing_fields =
        ["Unable to analyze due to processing error"] ∧
      ∀ text menv, menv.basic = some b → menv.financial = fin →
        menv.technical = tech → menv.scoring = none →
        (multiStep_parse text menv).1 =
          some (c.extracted_data, zeroScoring, processingErrorGap)) := by
  injection hc with h
  subst h
  refine ⟨fun hf => ?_, fun ht => ?_, fun hs => ?_⟩
  · subst hf
    simp
  · subst ht
    simp
  · subst hs
    refine ⟨rfl, rfl, rfl, rfl, ?_⟩
    intro text menv hb hf ht2 hs2
    obtain ⟨mb, mf, mt, ms⟩ := menv
    simp only at hb hf ht2 hs2
    subst hb
    subst hf
    subst ht2
    subst hs2
    rfl

/-- Witness for C3: a run in which only the scoring call failed still produces
a well-formed triple, with the zeroed scoring and the retry gap analysis. -/
theorem claim_C3_witness :
    (multiStep_parse "sample text" menvBasicOnly).1 =
      some (({} : ExtractedData), zeroScoring, processingErrorGap) := by
  have h := claim_C3_missing_section_handling {} none none none _ rfl
  exact (h.2.2 rfl).2.2.2.2 "sample text" menvBasicOnly rfl rfl rfl rfl

/-- The page returned by `get_contracts` is sorted by `created_at`
descending: it is a take/drop of the insertion-sorted matching set, and the
row projection preserves `created_at`. -/
theorem get_contracts_sorted (store : List StoredContract) (page limit : Int)
    (sf : Option String) :
    List.Pairwise (fun a b => b.created_at ≤ a.created_at)
      (get_contracts store page limit sf).contracts := by
  unfold get_contracts
  rw [List.pairwise_map]
  have hs : List.Pairwise createdDesc
      (List.insertionSort createdDesc (store.filter (matchesFilter sf))) :=
    List.sorted_insertionSort createdDesc _
  exact List.Pairwise.sublist
    ((List.take_sublist _ _).trans (List.drop_sublist _ _)) hs

/-- C8: under the endpoint's validated ranges, a successful list response has
`has_next = ((page-1)*limit + limit < total)` with `total` the matching count,
`has_prev = (page > 1)`, and contracts ordered reverse-chronologically by
`created_at`; a truthy unrecognized status filter is rejected with 400, not
answered with an empty page. -/
theorem claim_C8_list_pagination (store : List StoredContract) (page limit : Int)
    (status : Option String)
    (hp : 1 ≤ page) (hl : 1 ≤ limit) (hl2 : limit ≤ 100) :
    (∀ r, api_get_contracts page limit status store = .ok r →
      r.has_next = decide (listSkip page limit + limit < r.total) ∧
      r.has_prev = decide (1 < page) ∧
      r.total = ((store.filter (matchesFilter status)).length : Int) ∧
      List.Pairwise (fun a b => b.created_at ≤ a.created_at) r.contracts) ∧
    (∀ s, s ≠ "" → s ∉ statusValues →
      api_get_contracts page limit (some s) store = .error 400) := by
  have hcond : ¬(page < 1 ∨ limit < 1 ∨ 100 < limit) := by omega
  constructor
  · intro r hr
    unfold api_get_contracts at hr
    rw [if_neg hcond] at hr
    cases status with
    | none =>
      dsimp only at hr
      injection hr with h
      subst h
      exact ⟨rfl, rfl, rfl, get_contracts_sorted store page limit none⟩
    | some s =>
      dsimp only at hr
      by_cases hbad : s ≠ "" ∧ s ∉ statusValues
      · rw [if_pos hbad] at hr
        simp at hr
      · rw [if_neg hbad] at hr
        injection hr with h
        subst h
        exact ⟨rfl, rfl, rfl, get_contracts_sorted store page limit (some s)⟩
  · intro s hs1 hs2
    unfold api_get_contracts
    rw [if_neg hcond]
    dsimp only
    rw [if_pos (And.intro hs1 hs2)]

/-- A concrete three-document store (created at times 1, 3, 2). -/
def storeW : List StoredContract :=
  [⟨"a", "pending", 0, none, 1, 1⟩,
   ⟨"b", "completed", 100, none, 3, 3⟩,
   ⟨"c", "failed", 0, some "x", 2, 2⟩]

/-- Witness for C8 at `storeW` with page 1 of size 2: the response formulas
hold, the page is reverse-chronological, and the status filter "bogus" is
rejected with 400. -/
theorem claim_C8_witness :
    ((get_contracts storeW 1 2 none).has_next =
        decide (listSkip 1 2 + 2 < (get_contracts storeW 1 2 none).total) ∧
      (get_contracts storeW 1 2 none).has_prev = decide (1 < (1 : Int)) ∧
      (get_contracts storeW 1 2 none).total =
        ((storeW.filter (matchesFilter none)).length : Int) ∧
      List.Pairwise (fun a b => b.created_at ≤ a.created_at)
        (get_contracts storeW 1 2 none).contracts) ∧
    api_get_contracts 1 2 (some "bogus") storeW = .error 400 :=
  ⟨(claim_C8_list_pagination storeW 1 2 none (by decide) (by decide) (by decide)).1
      _ rfl,
   (claim_C8_list_pagination storeW 1 2 none (by decide) (by decide) (by decide)).2
      "bogus" (by decide) (by decide)⟩

/-- C10: the list endpoint rejects out-of-range `page`/`limit` with a
validation error before consulting the store (the result is the same for
every store), and under the validated ranges the computed skip offset
`(page-1)*limit` is non-negative. -/
theorem claim_C10_skip_nonneg (page limit : Int) :
    (page < 1 ∨ limit < 1 ∨ 100 < limit →
      ∀ status store, api_get_contracts page limit status store = .error 422) ∧
    (1 ≤ page → 1 ≤ limit → limit ≤ 100 → 0 ≤ listSkip page limit) := by
  constructor
  · intro h status store
    unfold api_get_contracts
    rw [if_pos h]
  · intro hp hl _
    unfold listSkip
    have h1 : (0:Int) ≤ page - 1 := by omega
    have h2 : (0:Int) ≤ limit := by omega
    exact mul_nonneg h1 h2

/-- Witness for C10: `page = 0` is rejected for a concrete store without
consulting it, and the skip offset at page 3, limit 10 is non-negative. -/
theorem claim_C10_witness :
    api_get_contracts 0 10 none storeW = .error 422 ∧ 0 ≤ listSkip 3 10 :=
  ⟨(claim_C10_skip_nonneg 0 10).1 (by decide) none storeW,
   (claim_C10_skip_nonneg 3 10).2 (by decide) (by decide) (by decide)⟩

end ContractIntel
